import Mathlib

/-!
Shallow embedding of the duplicate-detection and resolution engine of the
capbot_agent repository (Python sources under `app/`), together with theorems
settling the specification claims about it.

Modelling conventions:
* Python floats are modelled as exact rationals (`ℚ`); the similarity scores
  and thresholds the engine compares are plain decimal constants, for which
  rational comparison agrees with IEEE float comparison.
* External effects (the Gemini LLM calls, the Chroma vector index, the SQL
  database) are modelled as explicit parameters holding the value the call
  would return; failures of those calls are `Except.error` values.
* Python dicts carrying heterogeneous JSON data are modelled as association
  lists over a small value type `JVal`.
* A Python `Enum` member is not equal (`==`) to its `.value` string; the
  `StatusVal` type and `pyEqStatusStr` capture this distinction, which the
  source code depends on.
-/

namespace CapBot

/-- Python substring test `needle in hay` on lists of characters. -/
def listContainsSub (needle : List Char) : List Char → Bool
  | [] => needle.isEmpty
  | c :: cs => needle.isPrefixOf (c :: cs) || listContainsSub needle cs

/-- Python substring test `needle in hay` for strings. -/
def pyInStr (needle hay : String) : Bool :=
  listContainsSub needle.toList hay.toList

/-- Truthiness of an optional integer, as in Python `if x:` where `x` is
`None` or an `int` (`None` and `0` are falsy). -/
def pyTruthyOptInt : Option Int → Bool
  | none => false
  | some n => n != 0

/-- Truthiness of an optional rational, as in Python `if x:` where `x` is
`None` or a `float`. -/
def pyTruthyOptRat : Option ℚ → Bool
  | none => false
  | some q => q != 0

/-- `class DuplicationStatus(Enum)` from `app/schemas/schemas.py`. -/
inductive DuplicationStatus where
  | no_duplicate
  | potential_duplicate
  | duplicate_found
deriving DecidableEq, Repr

/-- The `.value` string of a `DuplicationStatus` member. -/
def DuplicationStatus.value : DuplicationStatus → String
  | .no_duplicate => "no_duplicate"
  | .potential_duplicate => "potential_duplicate"
  | .duplicate_found => "duplicate_found"

/-- Runtime value found in the `"status"` slot of a duplicate-check dict: the
detection agent stores the `DuplicationStatus` enum member itself, while data
arriving from JSON would hold its string value. -/
inductive StatusVal where
  | enumVal (s : DuplicationStatus)
  | strVal (s : String)
deriving DecidableEq, Repr

/-- Python `==` between a status slot and a `str`: an `Enum` member never
equals a string (`Enum.__eq__` falls back to identity), a string compares by
value. -/
def pyEqStatusStr : StatusVal → String → Bool
  | .enumVal _, _ => false
  | .strVal s, t => s == t

/-- Python `str.lower()` restricted to ASCII letters (the keys and status
values it is applied to are ASCII); written over the character data so it
evaluates by kernel reduction. -/
def asciiLower (s : String) : String :=
  ⟨s.data.map Char.toLower⟩

/-- The router normalization `str(getattr(status, "value", status)).lower()`
(`app/api/topic_router.py`). -/
def normalizeStatus : StatusVal → String
  | .enumVal s => asciiLower s.value
  | .strVal s => asciiLower s

/-- Metadata stored with an indexed topic in Chroma (`metadata` dict of a
query hit). Missing keys are `none` / `""` matching `metadata.get` defaults. -/
structure CandidateMeta where
  title : String := ""
  description : String := ""
  objectives : String := ""
  methodology : String := ""
  semester_id : Option Int := none
  category_id : Option Int := none
  supervisor_id : Option Int := none
  created_at : Option String := none
deriving DecidableEq, Repr

/-- One element of the list returned by
`ChromaService.search_similar_topics`: id, top-level title (copied from the
metadata), raw document, similarity score (`1 - distance`) and metadata.
Chroma ids are decimal strings of the topic ids; they are modelled as the
integers, and the string comparison against `str(exclude_topic_id)` as
integer equality (both sides are canonical decimal forms). -/
structure Candidate where
  id : Int
  title : String
  content : String
  similarity_score : ℚ
  metadata : CandidateMeta
deriving DecidableEq, Repr

/-- A raw hit of `collection.query` before the distance→similarity
conversion in `search_similar_topics`. -/
structure RawHit where
  id : Int
  document : String
  metadata : CandidateMeta
  distance : ℚ
deriving DecidableEq, Repr

/-- Body of `ChromaService.search_similar_topics`
(`app/services/chroma_service.py`): converts each hit to a similarity score
`1 - distance`, drops hits below `similarity_threshold` when that threshold
is truthy, and absorbs any backend failure into an empty result list (the
failure is only logged). The embedding computation and `collection.query`
are external; their combined outcome is the `queryOutcome` parameter. -/
def searchSimilarTopicsBody (queryOutcome : Except String (List RawHit))
    (similarity_threshold : Option ℚ) : List Candidate :=
  match queryOutcome with
  | .error _ => []
  | .ok hits =>
    hits.filterMap fun h =>
      let similarity_score := 1 - h.distance
      if pyTruthyOptRat similarity_threshold ∧
          similarity_score < similarity_threshold.getD 0 then
        none
      else
        some { id := h.id, title := h.metadata.title, content := h.document,
               similarity_score := similarity_score, metadata := h.metadata }

/-- The keyword parameters accepted by the Python signature
`search_similar_topics(self, query_content, n_results=10, similarity_threshold=None)`. -/
def searchSimilarTopicsParams : List String :=
  ["query_content", "n_results", "similarity_threshold"]

/-- Python call binding for `chroma_service.search_similar_topics(...)`: a
keyword argument that is not a declared parameter raises `TypeError` before
the function body (and its internal `try` block) runs. -/
def callSearchSimilarTopics (kwargs : List String)
    (queryOutcome : Except String (List RawHit))
    (similarity_threshold : Option ℚ) : Except String (List Candidate) :=
  if kwargs.all (fun k => searchSimilarTopicsParams.contains k) then
    .ok (searchSimilarTopicsBody queryOutcome similarity_threshold)
  else
    .error "TypeError: search_similar_topics() got an unexpected keyword argument"

/-- Exclusion / self-match filter of `DuplicateDetectionAgent.process`
(`app/agents/duplicate_detection_agent.py`, lines 56-70): when
`exclude_topic_id` is truthy drop that id, otherwise drop candidates whose
top-level title equals the input title (both stripped) and whose similarity
is at least `0.999`. -/
def filterExclude (exclude_topic_id : Option Int) (topic_title : String)
    (similar_topics : List Candidate) : List Candidate :=
  if pyTruthyOptInt exclude_topic_id then
    similar_topics.filter fun t => t.id != exclude_topic_id.getD 0
  else
    similar_topics.filter fun t =>
      !(t.title.trim == topic_title.trim && t.similarity_score ≥ 0.999)

/-- Semester filter with fallback of `DuplicateDetectionAgent.process`
(lines 72-81): when `semester_id` is truthy keep candidates of that
semester, but fall back to the unfiltered list when the filter empties it. -/
def filterSemester (semester_id : Option Int)
    (similar_topics : List Candidate) : List Candidate :=
  if pyTruthyOptInt semester_id then
    let filtered := similar_topics.filter fun t =>
      t.metadata.semester_id == semester_id
    if filtered.isEmpty then similar_topics else filtered
  else similar_topics

/-- The candidate filtering pipeline of `DuplicateDetectionAgent.process`:
exclusion / self-match first, then the semester filter with fallback. -/
def filterCandidates (exclude_topic_id semester_id : Option Int)
    (topic_title : String) (similar_topics : List Candidate) : List Candidate :=
  filterSemester semester_id (filterExclude exclude_topic_id topic_title similar_topics)

/-- Python `max(topic["similarity_score"] for topic in similar_topics)` for a
nonempty list (the empty case is returned earlier by the source). -/
def maxSimilarityOf : List Candidate → ℚ
  | [] => 0
  | c :: cs => cs.foldl (fun a t => max a t.similarity_score) c.similarity_score

/-- Fixed-point percent rendering `f"{q:.2%}"`; models CPython formatting of
the exact decimal values occurring in this development (ties and binary float
artifacts are not modelled). -/
def formatPercent2 (q : ℚ) : String :=
  let r : Int := round (q * 10000)
  let frac := (r % 100).toNat
  toString (r / 100) ++ "." ++ (if frac < 10 then "0" else "") ++ toString frac ++ "%"

/-- Entry of the `similar_topics` list attached to a verdict
(`_analyze_similarity_results`, lines 198-214): public metadata fields plus
the candidate's own similarity score. -/
structure FormattedTopic where
  topic_id : Int
  title : String
  description : String
  objectives : String
  methodology : String
  similarity_score : ℚ
  semester_id : Option Int
  category_id : Option Int
  supervisor_id : Option Int
  created_at : Option String
deriving DecidableEq, Repr

/-- Formatting of one candidate for display. -/
def formatSimilarTopic (t : Candidate) : FormattedTopic :=
  { topic_id := t.id
    title := t.metadata.title
    description := t.metadata.description
    objectives := t.metadata.objectives
    methodology := t.metadata.methodology
    similarity_score := t.similarity_score
    semester_id := t.metadata.semester_id
    category_id := t.metadata.category_id
    supervisor_id := t.metadata.supervisor_id
    created_at := t.metadata.created_at }

/-- The dict returned by `_analyze_similarity_results` (without the
`processing_time` added later by the caller). -/
structure DuplicateCheckData where
  status : StatusVal
  similarity_score : ℚ
  similar_topics : List FormattedTopic
  threshold : ℚ
  message : String
  recommendations : List String
deriving DecidableEq, Repr

/-- `DuplicateDetectionAgent._analyze_similarity_results`
(`app/agents/duplicate_detection_agent.py`, lines 132-223). The two Gemini
calls (`_perform_enhanced_analysis`, `_extract_recommendations_from_analysis`)
are external; their results enter as `enhanced` and `recs`. -/
def analyzeSimilarityResults (enhanced : String) (recs : List String)
    (similar_topics : List Candidate) (threshold : ℚ) : DuplicateCheckData :=
  match similar_topics with
  | [] =>
    { status := .enumVal .no_duplicate
      similarity_score := 0
      similar_topics := []
      threshold := threshold
      message := "Không tìm thấy đề tài tương tự trong cơ sở dữ liệu."
      recommendations := [] }
  | c :: cs =>
    let all := c :: cs
    let max_similarity := maxSimilarityOf all
    let duplicate_candidates := all.filter fun t => t.similarity_score ≥ threshold
    let duplicate_candidates :=
      if duplicate_candidates.isEmpty then
        let near_dups := all.filter fun t => t.similarity_score ≥ 0.9
        if near_dups.isEmpty then duplicate_candidates else near_dups
      else duplicate_candidates
    let statusMessage : DuplicationStatus × String :=
      if max_similarity ≥ threshold then
        if max_similarity ≥ 0.8 then
          (.duplicate_found,
            "Phát hiện đề tài trùng lặp với độ tương tự " ++ formatPercent2 max_similarity
              ++ ". Đề tài cần được chỉnh sửa đáng kể.")
        else
          (.potential_duplicate,
            "Phát hiện đề tài có khả năng trùng lặp với độ tương tự "
              ++ formatPercent2 max_similarity
              ++ ". Khuyến nghị chỉnh sửa để tăng tính độc đáo.")
      else
        let potential_duplicates := all.filter fun t => t.similarity_score ≥ 0.6
        if !potential_duplicates.isEmpty then
          (.potential_duplicate,
            "Tìm thấy đề tài tương tự với độ tương tự " ++ formatPercent2 max_similarity
              ++ ". Có thể cân nhắc điều chỉnh để tăng tính khác biệt.")
        else
          (.no_duplicate,
            "Đề tài có tính độc đáo tốt. Độ tương tự cao nhất: "
              ++ formatPercent2 max_similarity ++ ".")
    let messageRecs : String × List String :=
      if !duplicate_candidates.isEmpty && enhanced != "" then
        (statusMessage.2 ++ " " ++ enhanced, recs)
      else (statusMessage.2, [])
    { status := .enumVal statusMessage.1
      similarity_score := max_similarity
      similar_topics := (all.take 5).map formatSimilarTopic
      threshold := threshold
      message := messageRecs.1
      recommendations := messageRecs.2 }

/-- Result object `AgentResult.to_dict()` of the duplicate-detection agent:
`success` together with the verdict dict (on success) or an error string. -/
structure AgentResultD where
  success : Bool
  data : Option DuplicateCheckData
  error : Option String
deriving DecidableEq, Repr

/-- `DuplicateDetectionAgent.process` (lines 26-109). The source invokes
`self.chroma_service.search_similar_topics(query_content=..., n_results=10,
similarity_threshold=0.3, where=input_data.get("where"))`; `where` is not a
parameter of `ChromaService.search_similar_topics`, so the call raises
`TypeError` before the query body runs, and the surrounding
`except Exception` turns it into a failed `AgentResult`. -/
def duplicateDetectionProcess (enhanced : String) (recs : List String)
    (topic_title : String) (exclude_topic_id semester_id : Option Int)
    (threshold : ℚ) (queryOutcome : Except String (List RawHit)) : AgentResultD :=
  match callSearchSimilarTopics
      ["query_content", "n_results", "similarity_threshold", "where"]
      queryOutcome (some 0.3) with
  | .error e => { success := false, data := none, error := some e }
  | .ok similar_topics =>
    let remaining := filterCandidates exclude_topic_id semester_id topic_title similar_topics
    { success := true
      data := some (analyzeSimilarityResults enhanced recs remaining threshold)
      error := none }

/-- Request body of `POST /check-duplicate-advanced`
(`DuplicateAdvancedRequest` in `app/api/topic_router.py`). -/
structure DuplicateAdvancedRequest where
  eN_Title : Option String := none
  title : Option String := none
  abbreviation : Option String := none
  vN_title : Option String := none
  problem : Option String := none
  context : Option String := none
  content : Option String := none
  description : Option String := none
  objectives : Option String := none
  categoryId : Option Int := none
  semesterId : Option Int := none
  maxStudents : Option Int := none
  fileId : Option Int := none
deriving DecidableEq, Repr

/-- Python `a or d` for an optional string `a` (empty strings are falsy). -/
def pyOrStrD (a : Option String) (d : String) : String :=
  match a with
  | some s => if s == "" then d else s
  | none => d

/-- The field list `[en_title, vn_title, problem, context_val,
content_section, description, objectives]` built by `check_duplicate_advanced`
(`app/api/topic_router.py`, lines 75-108) from a `DuplicateAdvancedRequest`. -/
def routerFieldList (req : DuplicateAdvancedRequest) : List String :=
  [pyOrStrD req.eN_Title (pyOrStrD req.title ""),
   pyOrStrD req.vN_title "",
   pyOrStrD req.problem "",
   pyOrStrD req.context "",
   pyOrStrD req.content "",
   pyOrStrD req.description "",
   pyOrStrD req.objectives ""]

/-- `combined_description = " ".join([part for part in [...] if part])`
(`app/api/topic_router.py`, lines 98-108): the comparison string of the
advanced duplicate check. -/
def combinedDescription (req : DuplicateAdvancedRequest) : String :=
  String.intercalate " " ((routerFieldList req).filter fun part => part != "")

/-- Prepend a field to a list of fields when it is present (non-empty). -/
def consIfPresent (s : String) (rest : List String) : List String :=
  if s = "" then rest else s :: rest

/-- The ComparisonDocument as worded by the spec: the present fields, in the
fixed order title → localized title → problem → context → content-body →
description → objectives, joined by single spaces; empty fields contribute
nothing. Stated as a second definition to compare with the source-derived
`combinedDescription`. -/
def comparisonDocumentSpec (req : DuplicateAdvancedRequest) : String :=
  String.intercalate " "
    (consIfPresent (pyOrStrD req.eN_Title (pyOrStrD req.title ""))
      (consIfPresent (pyOrStrD req.vN_title "")
        (consIfPresent (pyOrStrD req.problem "")
          (consIfPresent (pyOrStrD req.context "")
            (consIfPresent (pyOrStrD req.content "")
              (consIfPresent (pyOrStrD req.description "")
                (consIfPresent (pyOrStrD req.objectives "") [])))))))

/-! ### JSON values and dicts (Generator output handling) -/

/-- JSON-ish runtime values flowing through the modification agent: strings,
integers, lists of strings (the `modifications_made` list) and `None`.
Floats and nested objects do not occur on the modelled paths. -/
inductive JVal where
  | jstr (s : String)
  | jint (n : Int)
  | jlist (xs : List String)
  | jnull
deriving DecidableEq, Repr

/-- A Python dict of JSON values, as an association list with unique keys in
insertion order. -/
abbrev JObj := List (String × JVal)

/-- `o.get(k)` returning `None` as `none` when the key is absent. -/
def jget? (o : JObj) (k : String) : Option JVal :=
  (o.find? fun p => p.1 == k).map (·.2)

/-- `k in o`. -/
def jmem (o : JObj) (k : String) : Bool :=
  (jget? o k).isSome

/-- `o.get(k, d)`. -/
def jgetD (o : JObj) (k : String) (d : JVal) : JVal :=
  (jget? o k).getD d

/-- `o[k] = v`: update in place (keeping the key position) or append. -/
def jset (o : JObj) (k : String) (v : JVal) : JObj :=
  if jmem o k then o.map fun p => if p.1 == k then (k, v) else p
  else o ++ [(k, v)]

/-- `o.pop(k, None)`. -/
def jpop (o : JObj) (k : String) : JObj :=
  o.filter fun p => !(p.1 == k)

/-- Python truthiness of a `JVal`. -/
def pyTruthy : JVal → Bool
  | .jstr s => s != ""
  | .jint n => n != 0
  | .jlist xs => !xs.isEmpty
  | .jnull => false

/-- Python `str()` / f-string rendering of a `JVal`. The modelled code paths
only render strings and integers; CPython would additionally quote the
elements of a rendered list. -/
def pyStr : JVal → String
  | .jstr s => s
  | .jint n => toString n
  | .jlist xs => "[" ++ String.intercalate ", " xs ++ "]"
  | .jnull => "None"

/-- Python `int(v)`: identity on integers, decimal parsing (with optional
sign and surrounding whitespace) on strings, failure otherwise. -/
def pyInt? : JVal → Option Int
  | .jint n => some n
  | .jstr s => s.trim.toInt?
  | _ => none

/-- Python `a or b or ... or d`: the first truthy value, else the default. -/
def firstTruthy (vals : List JVal) (d : JVal) : JVal :=
  match vals with
  | [] => d
  | v :: rest => if pyTruthy v then v else firstTruthy rest d

/-- Python `len()` as used on the `modifications_made` slot; `len` of an
integer or `None` would raise and is not exercised. -/
def pyLen : JVal → ℕ
  | .jlist xs => xs.length
  | .jstr s => s.length
  | _ => 0

/-! ### Topic modification agent -/

/-- `TopicModificationAgent._determine_modification_strategy`
(`app/agents/topic_modification_agent.py`, lines 83-105). The dict reads
`status = duplicate_results.get("status", "")`,
`similarity_score = duplicate_results.get("similarity_score", 0.0)` and
`similar_topics_count = len(duplicate_results.get("similar_topics", []))`
are flattened into the three arguments. -/
def determineModificationStrategy (status : StatusVal) (similarity_score : ℚ)
    (similar_topics_count : ℕ) : String :=
  if pyEqStatusStr status "duplicate_found" then
    if similarity_score ≥ 0.95 then "major_redesign"
    else if similarity_score ≥ 0.85 then "significant_changes"
    else "moderate_changes"
  else if pyEqStatusStr status "potential_duplicate" then
    if similar_topics_count > 3 then "differentiation_focus"
    else "minor_adjustments"
  else "enhancement_only"

/-- The synthesized value for a missing/empty `problem`/`context`/`content`
field in `_parse_modification_response` (lines 290-301), built from the
current title and the first 100 characters of the current description. -/
def genMissingVectorField (original_topic md : JObj) (key : String) : JVal :=
  if key == "problem" then
    .jstr ("Vấn đề cần giải quyết trong nghiên cứu "
      ++ pyStr (jgetD md "title" (.jstr "này")) ++ ": "
      ++ (pyStr (jgetD md "description" (.jstr ""))).take 100 ++ "...")
  else if key == "context" then
    .jstr ("Bối cảnh nghiên cứu liên quan đến "
      ++ pyStr (jgetD md "title" (.jstr "đề tài này")) ++ ": "
      ++ (pyStr (jgetD md "description" (.jstr ""))).take 100 ++ "...")
  else if key == "content" then
    .jstr ("Nội dung chính của nghiên cứu "
      ++ pyStr (jgetD md "title" (.jstr "này")) ++ ": "
      ++ (pyStr (jgetD md "description" (.jstr ""))).take 100 ++ "...")
  else jgetD original_topic key (.jstr "")

/-- The id/count coercion of `_parse_modification_response` (lines 259-270)
for one key: skip `None`/`""` values, try `int()`, and on failure fall back
to `int()` of the original value when present and not `None`. -/
def coerceIntField (original_topic : JObj) (md : JObj) (k : String) : JObj :=
  match jget? md k with
  | none => md
  | some v =>
    if v == JVal.jnull || v == JVal.jstr "" then md
    else
      match pyInt? v with
      | some n => jset md k (.jint n)
      | none =>
        match jget? original_topic k with
        | some ov =>
          if ov == JVal.jnull then md
          else
            match pyInt? ov with
            | some n => jset md k (.jint n)
            | none => md
        | none => md

/-- The `deprecated_fields` list of `_parse_modification_response`
(lines 273-277), duplicates included as in the source. -/
def deprecatedPopList : List String :=
  ["methodology", "expected_outcomes", "requirements",
   "expectedOutcomes", "methodology", "requirements",
   "methodology", "expected_outcomes", "requirements"]

/-- Keyword test of lines 283-288: the lowercased key contains
`methodology`, `expected` or `requirements`. `String.toLower` lowers ASCII
letters only, matching the ASCII key names involved. -/
def isDeprecatedKey (k : String) : Bool :=
  pyInStr "methodology" (asciiLower k) || pyInStr "expected" (asciiLower k)
    || pyInStr "requirements" (asciiLower k)

/-- `TopicModificationAgent._create_fallback_modification` (lines 414-449):
the deterministic textual-heuristic proposal used when no JSON object can be
recovered from the Generator output. -/
def createFallbackModification (original_topic : JObj) : JObj :=
  let original_title := pyStr (jgetD original_topic "title" (.jstr ""))
  let modified_title :=
    if !(pyInStr "hệ thống" (asciiLower original_title)) then "Hệ thống " ++ original_title
    else if !(pyInStr "ứng dụng" (asciiLower original_title)) then "Ứng dụng " ++ original_title
    else original_title ++ " - Phiên bản cải tiến"
  let original_objectives := pyStr (jgetD original_topic "objectives" (.jstr ""))
  let modified_objectives := original_objectives
    ++ " Đặc biệt chú trọng vào tính khác biệt và giá trị ứng dụng trong bối cảnh hiện tại."
  [("title", JVal.jstr modified_title),
   ("description", jgetD original_topic "description" (.jstr "")),
   ("objectives", JVal.jstr modified_objectives),
   ("problem",
     let p := jgetD original_topic "problem" (.jstr "")
     if pyTruthy p then p
     else .jstr ("Vấn đề cần giải quyết trong nghiên cứu " ++ modified_title)),
   ("context",
     let p := jgetD original_topic "context" (.jstr "")
     if pyTruthy p then p
     else .jstr ("Bối cảnh nghiên cứu liên quan đến " ++ modified_title)),
   ("content",
     let p := jgetD original_topic "content" (.jstr "")
     if pyTruthy p then p
     else .jstr ("Nội dung chính của nghiên cứu " ++ modified_title)),
   ("supervisor_id",
     firstTruthy [jgetD original_topic "supervisor_id" .jnull,
                  jgetD original_topic "supervisorId" .jnull] (.jint 1)),
   ("semester_id",
     firstTruthy [jgetD original_topic "semester_id" .jnull,
                  jgetD original_topic "semesterId" .jnull] (.jint 1)),
   ("category_id",
     firstTruthy [jgetD original_topic "category_id" .jnull,
                  jgetD original_topic "categoryId" .jnull] (.jint 0)),
   ("max_students", jgetD original_topic "max_students" (.jint 1)),
   ("modifications_made",
     JVal.jlist ["Điều chỉnh tiêu đề để tăng tính khác biệt",
                 "Làm rõ problem, context, content theo hướng khác biệt",
                 "Làm rõ mục tiêu và tính ứng dụng"]),
   ("rationale",
     JVal.jstr "Đề tài đã được điều chỉnh để giảm độ tương tự với các đề tài hiện có trong cơ sở dữ liệu.")]

/-- One iteration of the required-field backfill loop of
`_parse_modification_response` (lines 245-251). -/
def requiredBackfillStep (original_topic : JObj) (md : JObj) (f : String) : JObj :=
  if jmem md f then md
  else
    match jget? original_topic f with
    | some v => jset md f v
    | none => jset md f (.jstr "")

/-- One iteration of the problem/context/content loop of
`_parse_modification_response` (lines 290-301). -/
def ensureVectorFieldStep (original_topic : JObj) (md : JObj) (k : String) : JObj :=
  if !(jmem md k) || !(pyTruthy (jgetD md k .jnull)) then
    jset md k (genMissingVectorField original_topic md k)
  else md

/-- The `category_id` backfill of `_parse_modification_response`
(lines 254-255). -/
def backfillCategoryStep (original_topic md : JObj) : JObj :=
  if jmem md "category_id" then md
  else jset md "category_id"
    (firstTruthy [jgetD original_topic "category_id" .jnull,
                  jgetD original_topic "categoryId" .jnull] (.jint 0))

/-- The `max_students` backfill of `_parse_modification_response`
(lines 256-257). -/
def backfillMaxStudentsStep (original_topic md : JObj) : JObj :=
  if jmem md "max_students" then md
  else jset md "max_students" (jgetD original_topic "max_students" (.jint 1))

/-- The `modifications_made` presence check of `_parse_modification_response`
(lines 310-311). -/
def ensureModificationsMadeStep (md : JObj) : JObj :=
  if jmem md "modifications_made" then md
  else jset md "modifications_made"
    (.jlist ["Đã thực hiện các điều chỉnh để giảm trùng lặp"])

/-- The `rationale` presence check of `_parse_modification_response`
(lines 313-314). -/
def ensureRationaleStep (md : JObj) : JObj :=
  if jmem md "rationale" then md
  else jset md "rationale"
    (.jstr "Đề tài đã được chỉnh sửa để tăng tính độc đáo và giảm trùng lặp.")

/-- `TopicModificationAgent._parse_modification_response` (lines 228-320).
The brace extraction `response_text[json_start:json_end]` plus `json.loads`
is external text processing; its outcome enters as `response`: `some obj`
for a recovered JSON object, `none` when no JSON object can be recovered (or
parsing raises), in which case the except handler returns the fallback. -/
def parseModificationResponse (response : Option JObj) (original_topic : JObj) : JObj :=
  match response with
  | none => createFallbackModification original_topic
  | some modified_data =>
    let md := ["title", "description", "objectives", "supervisor_id", "semester_id"].foldl
      (requiredBackfillStep original_topic) modified_data
    let md := backfillCategoryStep original_topic md
    let md := backfillMaxStudentsStep original_topic md
    let md := ["supervisor_id", "semester_id", "category_id", "max_students"].foldl
      (coerceIntField original_topic) md
    let md := deprecatedPopList.foldl jpop md
    let md := md.filter fun p => !(isDeprecatedKey p.1)
    let md := ["problem", "context", "content"].foldl
      (ensureVectorFieldStep original_topic) md
    let md := ["methodology", "expected_outcomes", "requirements", "expectedOutcomes"].foldl jpop md
    let md := ensureModificationsMadeStep md
    let md := ensureRationaleStep md
    md

/-- The `pick_int` helper of `_normalize_modified_topic` (lines 360-368):
first candidate that is not `None`/`""` and coerces to `int`, else the
default. -/
def pickInt (cands : List JVal) (d : JVal) : JVal :=
  match cands with
  | [] => d
  | v :: rest =>
    if v == JVal.jnull || v == JVal.jstr "" then pickInt rest d
    else
      match pyInt? v with
      | some n => .jint n
      | none => pickInt rest d

/-- One iteration of the title/description/objectives loop of
`_normalize_modified_topic` (lines 331-342). -/
def normalizeTextFieldStep (original_topic : JObj) (nm : JObj) (key : String) : JObj :=
  if !(pyTruthy (jgetD nm key .jnull)) then
    if key == "title" then
      jset nm key (firstTruthy
        [jgetD original_topic "title" .jnull,
         jgetD original_topic "eN_Title" .jnull,
         jgetD original_topic "vN_title" .jnull] (.jstr ""))
    else jset nm key (jgetD original_topic key (.jstr ""))
  else nm

/-- One iteration of the problem/context/content loop of
`_normalize_modified_topic` (lines 345-357). -/
def normalizeVectorFieldStep (original_topic : JObj) (nm : JObj) (key : String) : JObj :=
  if !(pyTruthy (jgetD nm key .jnull)) then
    let title := pyStr (jgetD nm "title" (.jstr ""))
    let description := pyStr (jgetD nm "description" (.jstr ""))
    if key == "problem" then
      jset nm key (.jstr ("Vấn đề cần giải quyết trong nghiên cứu " ++ title
        ++ ": " ++ description.take 100 ++ "..."))
    else if key == "context" then
      jset nm key (.jstr ("Bối cảnh nghiên cứu liên quan đến " ++ title
        ++ ": " ++ description.take 100 ++ "..."))
    else if key == "content" then
      jset nm key (.jstr ("Nội dung chính của nghiên cứu " ++ title
        ++ ": " ++ description.take 100 ++ "..."))
    else jset nm key (jgetD original_topic key (.jstr ""))
  else nm

/-- The `modifications_made` non-emptiness guard of
`_normalize_modified_topic` (lines 401-405): the replacement value is
`modified_topic.get("modifications_made", defaults)`, which returns the
present (possibly empty) value rather than the defaults. -/
def normalizeEnsureModificationsStep (modified_topic nm : JObj) : JObj :=
  if !(pyTruthy (jgetD nm "modifications_made" .jnull)) then
    jset nm "modifications_made"
      (jgetD modified_topic "modifications_made"
        (.jlist ["Điều chỉnh tiêu đề để tăng tính khác biệt",
                 "Bổ sung phương pháp tiếp cận độc đáo"]))
  else nm

/-- The `rationale` non-emptiness guard of `_normalize_modified_topic`
(lines 406-410), with the same present-value fallback shape. -/
def normalizeEnsureRationaleStep (modified_topic nm : JObj) : JObj :=
  if !(pyTruthy (jgetD nm "rationale" .jnull)) then
    jset nm "rationale"
      (jgetD modified_topic "rationale"
        (.jstr "Đề tài đã được chỉnh sửa để tăng tính độc đáo và giảm trùng lặp."))
  else nm

/-- `TopicModificationAgent._normalize_modified_topic` (lines 322-412). -/
def normalizeModifiedTopic (modified_topic original_topic : JObj) : JObj :=
  let normalized := modified_topic
  let normalized := ["title", "description", "objectives"].foldl
    (normalizeTextFieldStep original_topic) normalized
  let normalized := ["problem", "context", "content"].foldl
    (normalizeVectorFieldStep original_topic) normalized
  let normalized := jset normalized "supervisor_id"
    (pickInt [jgetD normalized "supervisor_id" .jnull,
              jgetD original_topic "supervisor_id" .jnull,
              jgetD original_topic "supervisorId" .jnull] (.jint 1))
  let normalized := jset normalized "semester_id"
    (pickInt [jgetD normalized "semester_id" .jnull,
              jgetD original_topic "semester_id" .jnull,
              jgetD original_topic "semesterId" .jnull] (.jint 1))
  let normalized := jset normalized "category_id"
    (pickInt [jgetD normalized "category_id" .jnull,
              jgetD original_topic "category_id" .jnull,
              jgetD original_topic "categoryId" .jnull] (.jint 0))
  let normalized := jset normalized "max_students"
    (pickInt [jgetD normalized "max_students" .jnull,
              jgetD original_topic "max_students" .jnull] (.jint 1))
  let normalized := ["methodology", "expected_outcomes", "requirements", "expectedOutcomes"].foldl
    jpop normalized
  let normalized := normalizeEnsureModificationsStep modified_topic normalized
  let normalized := normalizeEnsureRationaleStep modified_topic normalized
  normalized

/-- The parse-then-normalize validation pipeline applied by
`TopicModificationAgent.process` to the Generator output (lines 41-49). -/
def tmValidate (response : Option JObj) (original_topic : JObj) : JObj :=
  normalizeModifiedTopic (parseModificationResponse response original_topic) original_topic

/-- Decimal rounding `round(q, 3)`; Python rounds ties to even on floats,
the values reached in this development are not at ties. -/
def roundTo3 (q : ℚ) : ℚ :=
  (round (q * 1000) : ℤ) / 1000

/-- `TopicModificationAgent._estimate_similarity_improvement`
(lines 451-481), with `original_similarity = duplicate_results.get("similarity_score", 0.0)`
and `modifications_count = len(modified_topic.get("modifications_made", []))`. -/
def estimateSimilarityImprovement (original_similarity : ℚ)
    (modifications_count : ℕ) : ℚ :=
  let base_improvement : ℚ := 0.1
  let modification_improvement : ℚ := (modifications_count : ℚ) * 0.05
  let additional_improvement : ℚ :=
    if original_similarity ≥ 0.9 then 0.3
    else if original_similarity ≥ 0.8 then 0.2
    else if original_similarity ≥ 0.7 then 0.15
    else 0.1
  roundTo3 (min (base_improvement + modification_improvement + additional_improvement)
    (original_similarity * 0.6))

/-- The data of a successful `TopicModificationAgent.process` response
(lines 26-74): the validated proposal dict (before the pydantic
`TopicRequest` coercion), its change list and rationale, the estimated
improvement and the strategy used. -/
structure TopicModificationData where
  modified_topic : JObj
  modifications_made : JVal
  rationale : JVal
  similarity_improvement : ℚ
  strategy_used : String
deriving DecidableEq, Repr

/-- `TopicModificationAgent.process` (lines 26-74): strategy from the
duplicate results, Generator invocation (external; its parsed outcome is
`response`), validation/normalization, and the improvement estimate. -/
def topicModificationProcess (response : Option JObj) (original_topic : JObj)
    (duplicate_results : DuplicateCheckData) : TopicModificationData :=
  let modification_strategy := determineModificationStrategy duplicate_results.status
    duplicate_results.similarity_score duplicate_results.similar_topics.length
  let modified_topic := tmValidate response original_topic
  { modified_topic := modified_topic
    modifications_made := jgetD modified_topic "modifications_made" (.jlist [])
    rationale := jgetD modified_topic "rationale" (.jstr "")
    similarity_improvement := estimateSimilarityImprovement
      duplicate_results.similarity_score
      (pyLen (jgetD modified_topic "modifications_made" (.jlist [])))
    strategy_used := modification_strategy }

/-- The modification branch of `check_duplicate_advanced`
(`app/api/topic_router.py`, lines 173-207): the status slot is normalized to
a lowercase string and the modification agent runs exactly when it is
`duplicate_found` or `potential_duplicate`; no recheck follows. -/
def checkDuplicateAdvancedModification (dup_data : DuplicateCheckData)
    (response : Option JObj) (normalized_original_topic : JObj) :
    Option TopicModificationData :=
  let status := normalizeStatus dup_data.status
  if status == "duplicate_found" || status == "potential_duplicate" then
    some (topicModificationProcess response normalized_original_topic dup_data)
  else none

/-- Result object of the modification agent as read by `MainAgent`. -/
structure ModAgentResult where
  success : Bool
  data : Option TopicModificationData
  error : Option String
deriving DecidableEq, Repr

/-- The slice of the `MainAgent.process` response relevant to the duplicate
branch (`app/agents/main_agent.py`, lines 75-120). -/
structure MainDuplicateStepResponse where
  duplicate_check : Option DuplicateCheckData
  modifications : Option TopicModificationData
  messages : List String
deriving DecidableEq, Repr

/-- Step 2 of `MainAgent.process` (lines 75-120): reads the duplicate
result, and only inside the `duplicate_status == DuplicationStatus.DUPLICATE_FOUND.value`
branch (a comparison of the stored status slot against the string value)
runs the modification agent and the recheck when `auto_modify` is set. The
sub-agent calls are external; their outcomes enter as
`modification_result` and `recheck_result`. A `None` error slot renders as
`"None"` in the failure messages, as in the Python f-strings. -/
def mainAgentDuplicateStep (auto_modify : Bool) (duplicate_result : AgentResultD)
    (modification_result : ModAgentResult) (recheck_result : AgentResultD) :
    MainDuplicateStepResponse :=
  match duplicate_result.success, duplicate_result.data with
  | true, some d =>
    if pyEqStatusStr d.status "duplicate_found" then
      let msg1 := "Phát hiện đề tài trùng lặp với độ tương tự "
        ++ formatPercent2 d.similarity_score
      if auto_modify then
        match modification_result.success, modification_result.data with
        | true, some m =>
          let msgs := [msg1, "Đã tự động chỉnh sửa đề tài để giảm trùng lặp"]
          match recheck_result.success, recheck_result.data with
          | true, some d1 =>
            { duplicate_check := some d1
              modifications := some m
              messages := msgs ++ ["Sau chỉnh sửa, độ tương tự giảm xuống "
                ++ formatPercent2 d1.similarity_score] }
          | _, _ => { duplicate_check := some d, modifications := some m, messages := msgs }
        | _, _ =>
          { duplicate_check := some d
            modifications := none
            messages := [msg1, "Lỗi khi chỉnh sửa đề tài: "
              ++ (match modification_result.error with | some e => e | none => "None")] }
      else { duplicate_check := some d, modifications := none, messages := [msg1] }
    else if pyEqStatusStr d.status "potential_duplicate" then
      { duplicate_check := some d
        modifications := none
        messages := ["Phát hiện đề tài có khả năng trùng lặp với độ tương tự "
          ++ formatPercent2 d.similarity_score] }
    else
      { duplicate_check := some d
        modifications := none
        messages := ["Đề tài có tính độc đáo tốt, không phát hiện trùng lặp"] }
  | _, _ =>
    { duplicate_check := none
      modifications := none
      messages := ["Lỗi khi kiểm tra trùng lặp: "
        ++ (match duplicate_result.error with | some e => e | none => "None")] }

/-! ### Shared helper lemmas and sample inputs -/

/-- Sample candidate builder for concrete instances. -/
def mkCand (i : Int) (q : ℚ) : Candidate :=
  { id := i, title := "Topic " ++ toString i, content := "",
    similarity_score := q, metadata := { title := "Topic " ++ toString i } }

/-- Sample original topic dict (all schema fields present and truthy). -/
def sampleOriginalTopic : JObj :=
  [("title", .jstr "Quan ly thu vien"),
   ("description", .jstr "Mo ta goc"),
   ("objectives", .jstr "Muc tieu goc"),
   ("problem", .jstr "Van de goc"),
   ("context", .jstr "Boi canh goc"),
   ("content", .jstr "Noi dung goc"),
   ("supervisor_id", .jint 7),
   ("semester_id", .jint 2),
   ("category_id", .jint 3),
   ("max_students", .jint 4)]

/-- Sample well-formed Generator output with three listed modifications. -/
def sampleGeneratorJson : JObj :=
  [("title", .jstr "He thong giam sat giao thong"),
   ("description", .jstr "Mo ta moi"),
   ("objectives", .jstr "Muc tieu moi"),
   ("problem", .jstr "Van de moi"),
   ("context", .jstr "Boi canh moi"),
   ("content", .jstr "Noi dung moi"),
   ("supervisor_id", .jint 7),
   ("semester_id", .jint 2),
   ("category_id", .jint 3),
   ("max_students", .jint 4),
   ("modifications_made", .jlist ["Doi ten de tai", "Doi pham vi", "Doi cong nghe"]),
   ("rationale", .jstr "Giam trung lap")]

/-- Sample Generator output whose `modifications_made` and `rationale` are
present but empty. -/
def emptyFieldsGeneratorJson : JObj :=
  [("title", .jstr "He thong giam sat giao thong"),
   ("description", .jstr "Mo ta moi"),
   ("objectives", .jstr "Muc tieu moi"),
   ("problem", .jstr "Van de moi"),
   ("context", .jstr "Boi canh moi"),
   ("content", .jstr "Noi dung moi"),
   ("supervisor_id", .jint 7),
   ("semester_id", .jint 2),
   ("category_id", .jint 3),
   ("max_students", .jint 4),
   ("modifications_made", .jlist []),
   ("rationale", .jstr "")]

theorem le_foldl_maxSim (l : List Candidate) (a : ℚ) :
    a ≤ l.foldl (fun x t => max x t.similarity_score) a := by
  induction l generalizing a with
  | nil => simp
  | cons c cs ih => exact le_trans (le_max_left _ _) (ih _)

theorem mem_le_foldl_maxSim (l : List Candidate) (a : ℚ) (c : Candidate) (hc : c ∈ l) :
    c.similarity_score ≤ l.foldl (fun x t => max x t.similarity_score) a := by
  induction l generalizing a with
  | nil => cases hc
  | cons d ds ih =>
    rcases List.mem_cons.mp hc with h | h
    · subst h
      exact le_trans (le_max_right _ _) (le_foldl_maxSim _ _)
    · exact ih _ h

theorem foldl_maxSim_cases (l : List Candidate) (a : ℚ) :
    l.foldl (fun x t => max x t.similarity_score) a = a
    ∨ ∃ c ∈ l, l.foldl (fun x t => max x t.similarity_score) a = c.similarity_score := by
  induction l generalizing a with
  | nil => exact Or.inl rfl
  | cons d ds ih =>
    rcases ih (max a d.similarity_score) with h | ⟨c, hc, h⟩
    · rcases max_choice a d.similarity_score with hm | hm
      · exact Or.inl (by simpa [hm] using h)
      · exact Or.inr ⟨d, List.mem_cons_self _ _, by simpa [hm] using h⟩
    · exact Or.inr ⟨c, List.mem_cons_of_mem _ hc, h⟩

theorem mem_le_maxSimilarityOf (l : List Candidate) (c : Candidate) (hc : c ∈ l) :
    c.similarity_score ≤ maxSimilarityOf l := by
  cases l with
  | nil => cases hc
  | cons d ds =>
    rcases List.mem_cons.mp hc with h | h
    · subst h; exact le_foldl_maxSim _ _
    · exact mem_le_foldl_maxSim _ _ _ h

theorem maxSimilarityOf_attained (l : List Candidate) (h : l ≠ []) :
    ∃ c ∈ l, maxSimilarityOf l = c.similarity_score := by
  cases l with
  | nil => exact absurd rfl h
  | cons d ds =>
    rcases foldl_maxSim_cases ds d.similarity_score with h0 | ⟨c, hc, h0⟩
    · exact ⟨d, List.mem_cons_self _ _, h0⟩
    · exact ⟨c, List.mem_cons_of_mem _ hc, h0⟩

theorem analyze_similarity_score_cons (enhanced : String) (recs : List String)
    (c : Candidate) (cs : List Candidate) (threshold : ℚ) :
    (analyzeSimilarityResults enhanced recs (c :: cs) threshold).similarity_score =
      maxSimilarityOf (c :: cs) := rfl

theorem analyze_similar_topics_eq (enhanced : String) (recs : List String)
    (cands : List Candidate) (threshold : ℚ) :
    (analyzeSimilarityResults enhanced recs cands threshold).similar_topics =
      (cands.take 5).map formatSimilarTopic := by
  cases cands <;> rfl

theorem exists_ge_iff_filter_not_isEmpty (l : List Candidate) (q : ℚ) :
    (∃ c ∈ l, q ≤ c.similarity_score) ↔
      (l.filter fun t => t.similarity_score ≥ q).isEmpty = false := by
  rw [Bool.eq_false_iff, ne_eq, List.isEmpty_iff, List.filter_eq_nil_iff]
  push_neg
  simp [ge_iff_le]

theorem analyze_status_cons (enhanced : String) (recs : List String)
    (c : Candidate) (cs : List Candidate) (threshold : ℚ) :
    (analyzeSimilarityResults enhanced recs (c :: cs) threshold).status =
      .enumVal
        (if maxSimilarityOf (c :: cs) ≥ threshold then
          if maxSimilarityOf (c :: cs) ≥ 0.8 then .duplicate_found
          else .potential_duplicate
        else if ∃ t ∈ c :: cs, (0.6 : ℚ) ≤ t.similarity_score then .potential_duplicate
        else .no_duplicate) := by
  by_cases h1 : maxSimilarityOf (c :: cs) ≥ threshold
  · by_cases h2 : maxSimilarityOf (c :: cs) ≥ (0.8 : ℚ) <;>
      simp [analyzeSimilarityResults, h1, h2]
  · by_cases h3 : ∃ t ∈ c :: cs, (0.6 : ℚ) ≤ t.similarity_score
    · have hf := (exists_ge_iff_filter_not_isEmpty (c :: cs) 0.6).mp h3
      simp [analyzeSimilarityResults, h1, hf]
      rw [if_pos (by simpa using h3)]
    · have hf : ((c :: cs).filter fun t => t.similarity_score ≥ (0.6 : ℚ)).isEmpty = true := by
        rw [List.isEmpty_iff, List.filter_eq_nil_iff]
        push_neg at h3
        simpa [ge_iff_le] using h3
      simp [analyzeSimilarityResults, h1, hf]
      rw [if_neg (by simpa using h3)]

theorem filter_ne_foldr_consIfPresent (xs : List String) :
    (xs.filter fun s => s != "") = xs.foldr consIfPresent [] := by
  induction xs with
  | nil => rfl
  | cons a xs ih =>
    by_cases h : a = "" <;> simp [List.filter_cons, consIfPresent, h, ih]

/-! ### Claim theorems -/

/-- C1: for every candidate list, threshold, excludeId and semester scope,
the classifier verdict on the filtered candidate list follows the ordered
rule exactly: empty list ⇒ NO_DUPLICATE with similarity 0; otherwise, with
maxSimilarity the maximum over remaining candidates (bounds and attainment
proved), DUPLICATE_FOUND iff maxSimilarity ≥ threshold and ≥ 0.8,
POTENTIAL_DUPLICATE iff maxSimilarity ≥ threshold but < 0.8 or
maxSimilarity < threshold with some candidate ≥ 0.6, NO_DUPLICATE otherwise;
all threshold comparisons inclusive. -/
theorem analyze_verdict_ordered_rule
    (enhanced : String) (recs : List String) (cands : List Candidate)
    (threshold : ℚ) (exclude_topic_id semester_id : Option Int)
    (topic_title : String) (remaining : List Candidate)
    (_hrem : remaining = filterCandidates exclude_topic_id semester_id topic_title cands) :
    (remaining = [] →
      (analyzeSimilarityResults enhanced recs remaining threshold).status =
          .enumVal .no_duplicate
      ∧ (analyzeSimilarityResults enhanced recs remaining threshold).similarity_score = 0)
    ∧ (remaining ≠ [] →
      (∀ c ∈ remaining, c.similarity_score ≤ maxSimilarityOf remaining)
      ∧ (∃ c ∈ remaining, maxSimilarityOf remaining = c.similarity_score)
      ∧ (analyzeSimilarityResults enhanced recs remaining threshold).similarity_score =
          maxSimilarityOf remaining
      ∧ ((analyzeSimilarityResults enhanced recs remaining threshold).status =
            .enumVal .duplicate_found
          ↔ threshold ≤ maxSimilarityOf remaining ∧ (0.8 : ℚ) ≤ maxSimilarityOf remaining)
      ∧ ((analyzeSimilarityResults enhanced recs remaining threshold).status =
            .enumVal .potential_duplicate
          ↔ (threshold ≤ maxSimilarityOf remaining ∧ maxSimilarityOf remaining < 0.8)
            ∨ (maxSimilarityOf remaining < threshold
                ∧ ∃ c ∈ remaining, (0.6 : ℚ) ≤ c.similarity_score))
      ∧ ((analyzeSimilarityResults enhanced recs remaining threshold).status =
            .enumVal .no_duplicate
          ↔ maxSimilarityOf remaining < threshold
            ∧ ∀ c ∈ remaining, c.similarity_score < 0.6)) := by
  clear _hrem
  constructor
  · rintro rfl
    exact ⟨rfl, rfl⟩
  · intro hne
    refine ⟨fun c hc => mem_le_maxSimilarityOf _ _ hc, maxSimilarityOf_attained _ hne, ?_⟩
    obtain ⟨c, cs, rfl⟩ : ∃ c cs, remaining = c :: cs := by
      cases remaining with
      | nil => exact absurd rfl hne
      | cons c cs => exact ⟨c, cs, rfl⟩
    refine ⟨analyze_similarity_score_cons _ _ _ _ _, ?_, ?_, ?_⟩ <;>
      rw [analyze_status_cons]
    · by_cases h1 : threshold ≤ maxSimilarityOf (c :: cs)
      · by_cases h2 : (0.8 : ℚ) ≤ maxSimilarityOf (c :: cs)
        · simp [ge_iff_le, h1, h2]
        · simp [ge_iff_le, h1, h2]
      · rw [if_neg h1]
        by_cases h3 : ∃ t ∈ c :: cs, (0.6 : ℚ) ≤ t.similarity_score
        · rw [if_pos (by simpa using h3)]
          simp [h1]
        · rw [if_neg (by simpa using h3)]
          simp [h1]
    · by_cases h1 : threshold ≤ maxSimilarityOf (c :: cs)
      · by_cases h2 : (0.8 : ℚ) ≤ maxSimilarityOf (c :: cs)
        · rw [if_pos h1, if_pos h2]
          constructor
          · intro h; exact absurd h (by simp)
          · rintro (⟨-, hb⟩ | ⟨ha, -⟩) <;> linarith
        · rw [if_pos h1, if_neg h2]
          simp only [not_le] at h2
          simp [h1, h2]
      · rw [if_neg h1]
        simp only [not_le] at h1
        by_cases h3 : ∃ t ∈ c :: cs, (0.6 : ℚ) ≤ t.similarity_score
        · rw [if_pos (by simpa using h3)]
          exact ⟨fun _ => Or.inr ⟨h1, h3⟩, fun _ => rfl⟩
        · rw [if_neg (by simpa using h3)]
          constructor
          · intro h; exact absurd h (by simp)
          · rintro (⟨ha, -⟩ | ⟨-, hb⟩)
            · linarith
            · exact absurd hb h3
    · by_cases h1 : threshold ≤ maxSimilarityOf (c :: cs)
      · by_cases h2 : (0.8 : ℚ) ≤ maxSimilarityOf (c :: cs) <;>
          [rw [if_pos h1, if_pos h2];
           rw [if_pos h1, if_neg h2]] <;>
          constructor <;> intro h
        · exact absurd h (by simp)
        · rcases h with ⟨ha, -⟩; linarith
        · exact absurd h (by simp)
        · rcases h with ⟨ha, -⟩; linarith
      · rw [if_neg h1]
        simp only [not_le] at h1
        by_cases h3 : ∃ t ∈ c :: cs, (0.6 : ℚ) ≤ t.similarity_score
        · rw [if_pos (by simpa using h3)]
          constructor
          · intro h; exact absurd h (by simp)
          · rintro ⟨-, hall⟩
            obtain ⟨t, ht, h6⟩ := h3
            exact absurd (hall t ht) (not_lt.mpr h6)
        · rw [if_neg (by simpa using h3)]
          push_neg at h3
          exact ⟨fun _ => ⟨h1, fun t ht => h3 t ht⟩, fun _ => rfl⟩

/-- Witness for C1 at a concrete input: one candidate of similarity 0.92 at
threshold 0.8 is classified DUPLICATE_FOUND. -/
theorem analyze_verdict_ordered_rule_witness :
    (analyzeSimilarityResults "" [] [mkCand 1 0.92] 0.8).status =
      .enumVal .duplicate_found := by
  have h := (analyze_verdict_ordered_rule "" [] [mkCand 1 0.92] 0.8 (some 5) none "Q"
      [mkCand 1 0.92]
      (by norm_num [filterCandidates, filterExclude, filterSemester, pyTruthyOptInt,
          mkCand, List.filter_cons])).2
      (by simp)
  exact h.2.2.2.1.mpr (by norm_num [maxSimilarityOf, mkCand])

/-- C7: for a fixed candidate list, relaxing the threshold never weakens the
verdict to NO_DUPLICATE: if the classifier returns DUPLICATE_FOUND at
threshold t2 then at any t1 < t2 it returns DUPLICATE_FOUND or
POTENTIAL_DUPLICATE. -/
theorem verdict_threshold_monotonicity (enhanced : String) (recs : List String)
    (cands : List Candidate) (t1 t2 : ℚ) (h12 : t1 < t2)
    (hdf : (analyzeSimilarityResults enhanced recs cands t2).status =
      .enumVal .duplicate_found) :
    (analyzeSimilarityResults enhanced recs cands t1).status =
      .enumVal .duplicate_found
    ∨ (analyzeSimilarityResults enhanced recs cands t1).status =
      .enumVal .potential_duplicate := by
  cases cands with
  | nil => exact absurd hdf (by simp [analyzeSimilarityResults])
  | cons c cs =>
    rw [analyze_status_cons] at hdf
    left
    rw [analyze_status_cons]
    by_cases h1 : t2 ≤ maxSimilarityOf (c :: cs)
    · by_cases h2 : (0.8 : ℚ) ≤ maxSimilarityOf (c :: cs)
      · rw [if_pos (le_trans (le_of_lt h12) h1), if_pos h2]
      · rw [if_pos h1, if_neg h2] at hdf
        exact absurd hdf (by simp)
    · rw [if_neg h1] at hdf
      by_cases h3 : ∃ t ∈ c :: cs, (0.6 : ℚ) ≤ t.similarity_score
      · rw [if_pos (by simpa using h3)] at hdf
        exact absurd hdf (by simp)
      · rw [if_neg (by simpa using h3)] at hdf
        exact absurd hdf (by simp)

/-- Witness for C7: a 0.9-similar candidate classified DUPLICATE_FOUND at
threshold 0.85 is DUPLICATE_FOUND or POTENTIAL_DUPLICATE at threshold 0.5. -/
theorem verdict_threshold_monotonicity_witness :
    (analyzeSimilarityResults "" [] [mkCand 1 0.9] 0.5).status =
      .enumVal .duplicate_found
    ∨ (analyzeSimilarityResults "" [] [mkCand 1 0.9] 0.5).status =
      .enumVal .potential_duplicate :=
  verdict_threshold_monotonicity "" [] [mkCand 1 0.9] 0.5 0.85 (by norm_num)
    (by rw [analyze_status_cons]; norm_num [maxSimilarityOf, mkCand])

/-- C10 counterexample: the classifier does not sort. Six candidates given in
ascending order at threshold 0.95: the attached `similar_topics` are the
first five in caller order (ascending, so not sorted descending), and the
0.9-similar candidate — the one with the highest score — is not among them,
although it is the maximum the verdict reports. -/
theorem similar_topics_not_sorted_top5 :
    ((analyzeSimilarityResults "" []
        [mkCand 1 0.1, mkCand 2 0.2, mkCand 3 0.3, mkCand 4 0.4, mkCand 5 0.5,
         mkCand 6 0.9] 0.95).similar_topics.map fun t => t.similarity_score) =
      [0.1, 0.2, 0.3, 0.4, 0.5]
    ∧ (analyzeSimilarityResults "" []
        [mkCand 1 0.1, mkCand 2 0.2, mkCand 3 0.3, mkCand 4 0.4, mkCand 5 0.5,
         mkCand 6 0.9] 0.95).similarity_score = 0.9 := by
  constructor
  · rw [analyze_similar_topics_eq]
    norm_num [mkCand, formatSimilarTopic]
  · rw [analyze_similarity_score_cons]
    norm_num [maxSimilarityOf, mkCand, max_def]

/-- C10 amended: the classifier performs no sorting; the `similar_topics`
attached to the verdict are the first (at most) five candidates in the order
given by the caller, each carrying its own similarity score, title and
topic id from its metadata. -/
theorem similar_topics_first_five (enhanced : String) (recs : List String)
    (cands : List Candidate) (threshold : ℚ) :
    (analyzeSimilarityResults enhanced recs cands threshold).similar_topics =
      (cands.take 5).map formatSimilarTopic
    ∧ ∀ t : Candidate,
        (formatSimilarTopic t).similarity_score = t.similarity_score
        ∧ (formatSimilarTopic t).title = t.metadata.title
        ∧ (formatSimilarTopic t).topic_id = t.id :=
  ⟨analyze_similar_topics_eq enhanced recs cands threshold, fun _ => ⟨rfl, rfl, rfl⟩⟩

/-- C4: the comparison string of the advanced duplicate check is exactly the
spec ComparisonDocument: present fields in the fixed order title → localized
title → problem → context → content-body → description → objectives, empty
fields skipped, joined by single spaces with nothing added; an empty request
yields the empty string. -/
theorem combined_description_matches_spec :
    (∀ req : DuplicateAdvancedRequest,
      combinedDescription req = comparisonDocumentSpec req)
    ∧ combinedDescription {} = "" := by
  constructor
  · intro req
    unfold combinedDescription comparisonDocumentSpec
    rw [filter_ne_foldr_consIfPresent]
    rfl
  · rfl


/-- C2 (code bug): `DuplicateDetectionAgent.process` invokes the index query
with the keyword argument `where`, which `ChromaService.search_similar_topics`
does not declare; the call raises `TypeError` for every input, and the agent
returns a failed result with no verdict — not the NO_DUPLICATE degrade the
spec requires (the API layer turns the failure into HTTP 500). The degrade
machinery does exist one layer below: a failing backend query yields an empty
candidate list, which the classifier would turn into NO_DUPLICATE with
similarity 0 and a non-empty message — but the agent never reaches it. -/
theorem duplicate_check_where_kwarg_failure :
    (∀ (enhanced : String) (recs : List String) (topic_title : String)
        (exclude_topic_id semester_id : Option Int) (threshold : ℚ)
        (queryOutcome : Except String (List RawHit)),
      (duplicateDetectionProcess enhanced recs topic_title exclude_topic_id
          semester_id threshold queryOutcome).success = false
      ∧ (duplicateDetectionProcess enhanced recs topic_title exclude_topic_id
          semester_id threshold queryOutcome).data = none)
    ∧ searchSimilarTopicsBody (.error "index unreachable") (some 0.3) = []
    ∧ (analyzeSimilarityResults "" [] [] 0.8).status = .enumVal .no_duplicate
    ∧ (analyzeSimilarityResults "" [] [] 0.8).similarity_score = 0
    ∧ (analyzeSimilarityResults "" [] [] 0.8).message ≠ "" :=
  ⟨fun _ _ _ _ _ _ _ => ⟨rfl, rfl⟩, rfl, rfl, rfl, by decide⟩

/-- C3 counterexample: a POTENTIAL_DUPLICATE initial verdict with auto-modify
enabled does not run the modification path: the orchestrator emits no
modifications and keeps the initial verdict, even though the modification
and recheck sub-agents stand ready to succeed. -/
theorem orchestrator_potential_duplicate_no_modification :
    (analyzeSimilarityResults "" [] [mkCand 1 0.65] 0.8).status =
      .enumVal .potential_duplicate
    ∧ (mainAgentDuplicateStep true
        ⟨true, some (analyzeSimilarityResults "" [] [mkCand 1 0.65] 0.8), none⟩
        ⟨true, some ⟨[], .jlist ["x"], .jstr "r", 0, "minor_adjustments"⟩, none⟩
        ⟨true, some (analyzeSimilarityResults "" [] [] 0.8), none⟩).modifications = none
    ∧ (mainAgentDuplicateStep true
        ⟨true, some (analyzeSimilarityResults "" [] [mkCand 1 0.65] 0.8), none⟩
        ⟨true, some ⟨[], .jlist ["x"], .jstr "r", 0, "minor_adjustments"⟩, none⟩
        ⟨true, some (analyzeSimilarityResults "" [] [] 0.8), none⟩).duplicate_check =
      some (analyzeSimilarityResults "" [] [mkCand 1 0.65] 0.8) := by
  refine ⟨?_, rfl, rfl⟩
  rw [analyze_status_cons]
  norm_num [maxSimilarityOf, mkCand]

/-- C3 amended: the orchestrator transitions directly to Done with the
initial verdict for every verdict the Duplicate Classifier produces, whatever
its status and whatever the auto-modify flag: the modify branch is guarded by
`duplicate_status == DuplicationStatus.DUPLICATE_FOUND.value`, a comparison
of the stored enum member against its string value, which is always false in
Python; the orchestrator even emits the no-duplicate message. -/
theorem orchestrator_enum_status_never_modifies
    (auto_modify : Bool) (s : DuplicationStatus) (q : ℚ)
    (topics : List FormattedTopic) (thr : ℚ) (msg : String) (recs : List String)
    (modification_result : ModAgentResult) (recheck_result : AgentResultD) :
    (mainAgentDuplicateStep auto_modify
        ⟨true, some ⟨.enumVal s, q, topics, thr, msg, recs⟩, none⟩
        modification_result recheck_result).modifications = none
    ∧ (mainAgentDuplicateStep auto_modify
        ⟨true, some ⟨.enumVal s, q, topics, thr, msg, recs⟩, none⟩
        modification_result recheck_result).duplicate_check =
      some ⟨.enumVal s, q, topics, thr, msg, recs⟩
    ∧ (mainAgentDuplicateStep auto_modify
        ⟨true, some ⟨.enumVal s, q, topics, thr, msg, recs⟩, none⟩
        modification_result recheck_result).messages =
      ["Đề tài có tính độc đáo tốt, không phát hiện trùng lặp"] :=
  ⟨rfl, rfl, rfl⟩


theorem normalizeStatus_enum_duplicate_found :
    normalizeStatus (.enumVal .duplicate_found) = "duplicate_found" := rfl

set_option maxRecDepth 8000 in
/-- C5 counterexample: with an initial DUPLICATE_FOUND verdict of similarity
0.9 (as the classifier produces for a 0.9-similar candidate at threshold
0.8) and a Generator output listing three modifications, the resolution flow
emits similarity improvement 0.54 = round3(min(0.1 + 3·0.05 + 0.3, 0.6·0.9)),
computed before any recheck; a recheck verdict of similarity 0.5 on the
modified content (as the classifier gives a 0.5-similar candidate) would make
verdict₀.similarity − verdict₁.similarity = 0.4 ≠ 0.54. -/
theorem similarity_improvement_not_difference :
    (analyzeSimilarityResults "" [] [mkCand 1 0.9] 0.8).status =
      .enumVal .duplicate_found
    ∧ (analyzeSimilarityResults "" [] [mkCand 1 0.9] 0.8).similarity_score = 0.9
    ∧ ((checkDuplicateAdvancedModification
          ⟨.enumVal .duplicate_found, 0.9, [], 0.8, "m0", []⟩
          (some sampleGeneratorJson) sampleOriginalTopic).map
        fun m => m.similarity_improvement) = some 0.54
    ∧ (analyzeSimilarityResults "" [] [mkCand 2 0.5] 0.8).similarity_score = 0.5
    ∧ (0.54 : ℚ) ≠ 0.9 - 0.5 := by
  refine ⟨?_, ?_, ?_, ?_, by norm_num⟩
  · rw [analyze_status_cons]
    norm_num [maxSimilarityOf, mkCand]
  · rw [analyze_similarity_score_cons]
    norm_num [maxSimilarityOf, mkCand]
  · have hmods : jgetD (tmValidate (some sampleGeneratorJson) sampleOriginalTopic)
        "modifications_made" (.jlist []) =
        .jlist ["Doi ten de tai", "Doi pham vi", "Doi cong nghe"] := by decide
    simp only [checkDuplicateAdvancedModification, normalizeStatus_enum_duplicate_found,
      topicModificationProcess, hmods]
    norm_num [estimateSimilarityImprovement, pyLen, roundTo3, min_def, round_eq]
  · rw [analyze_similarity_score_cons]
    norm_num [maxSimilarityOf, mkCand]

/-- C5 amended: the emitted similarity improvement is a deterministic
estimate from the initial verdict and the validated modification list alone:
it equals the estimator applied to verdict₀.similarity and the length of the
validated `modifications_made`, and any two duplicate-check verdicts with the
same similarity yield the same improvement — no recheck similarity enters. -/
theorem similarity_improvement_estimate_formula
    (response : Option JObj) (original_topic : JObj) (d : DuplicateCheckData) :
    (topicModificationProcess response original_topic d).similarity_improvement =
      estimateSimilarityImprovement d.similarity_score
        (pyLen (jgetD (tmValidate response original_topic) "modifications_made" (.jlist [])))
    ∧ ∀ d2 : DuplicateCheckData, d2.similarity_score = d.similarity_score →
        (topicModificationProcess response original_topic d2).similarity_improvement =
          (topicModificationProcess response original_topic d).similarity_improvement := by
  refine ⟨rfl, fun d2 h => ?_⟩
  simp only [topicModificationProcess, h]

/-- Witness for C5 amended: two verdicts differing in status, candidates,
threshold and message but sharing similarity 0.9 give the same emitted
improvement. -/
theorem similarity_improvement_estimate_formula_witness :
    (topicModificationProcess none []
        ⟨.enumVal .duplicate_found, 0.9, [], 0.8, "a", []⟩).similarity_improvement =
      (topicModificationProcess none []
        ⟨.enumVal .no_duplicate, 0.9, [], 0.5, "b", []⟩).similarity_improvement :=
  (similarity_improvement_estimate_formula none []
      ⟨.enumVal .no_duplicate, 0.9, [], 0.5, "b", []⟩).2
    ⟨.enumVal .duplicate_found, 0.9, [], 0.8, "a", []⟩ rfl

/-- C6: the Modification Strategist is a pure total function of the status
value, similarity and candidate count implementing the spec table; unseen
status values default to enhancement_only, and a DUPLICATE_FOUND verdict with
similarity 0.92 maps to significant_changes (not major_redesign). -/
theorem determine_modification_strategy_table :
    (∀ (q : ℚ) (n : ℕ), 0.95 ≤ q →
      determineModificationStrategy (.strVal "duplicate_found") q n = "major_redesign")
    ∧ (∀ (q : ℚ) (n : ℕ), 0.85 ≤ q → q < 0.95 →
      determineModificationStrategy (.strVal "duplicate_found") q n = "significant_changes")
    ∧ (∀ (q : ℚ) (n : ℕ), q < 0.85 →
      determineModificationStrategy (.strVal "duplicate_found") q n = "moderate_changes")
    ∧ (∀ (q : ℚ) (n : ℕ), 3 < n →
      determineModificationStrategy (.strVal "potential_duplicate") q n = "differentiation_focus")
    ∧ (∀ (q : ℚ) (n : ℕ), n ≤ 3 →
      determineModificationStrategy (.strVal "potential_duplicate") q n = "minor_adjustments")
    ∧ (∀ (q : ℚ) (n : ℕ),
      determineModificationStrategy (.strVal "no_duplicate") q n = "enhancement_only")
    ∧ (∀ (s : String) (q : ℚ) (n : ℕ), s ≠ "duplicate_found" → s ≠ "potential_duplicate" →
      determineModificationStrategy (.strVal s) q n = "enhancement_only")
    ∧ determineModificationStrategy (.strVal "duplicate_found") 0.92 1 =
        "significant_changes" := by
  refine ⟨?_, ?_, ?_, ?_, ?_, ?_, ?_, ?_⟩
  · intro q n h
    simp [determineModificationStrategy, pyEqStatusStr, h]
  · intro q n h85 h95
    simp [determineModificationStrategy, pyEqStatusStr, h85, not_le.mpr h95]
  · intro q n h
    have h95 : ¬(0.95 : ℚ) ≤ q := by linarith
    have h85 : ¬(0.85 : ℚ) ≤ q := not_le.mpr h
    simp [determineModificationStrategy, pyEqStatusStr, h95, h85]
  · intro q n h
    simp [determineModificationStrategy, pyEqStatusStr, h]
  · intro q n h
    simp [determineModificationStrategy, pyEqStatusStr, not_lt.mpr h]
  · intro q n
    simp [determineModificationStrategy, pyEqStatusStr]
  · intro s q n h1 h2
    simp [determineModificationStrategy, pyEqStatusStr, h1, h2]
  · have h95 : ¬(0.95 : ℚ) ≤ (0.92 : ℚ) := by norm_num
    have h85 : (0.85 : ℚ) ≤ (0.92 : ℚ) := by norm_num
    simp [determineModificationStrategy, pyEqStatusStr, h95, h85]

/-- Witness for C6 exercising the hypotheses of several table rows. -/
theorem determine_modification_strategy_table_witness :
    determineModificationStrategy (.strVal "duplicate_found") 0.96 0 = "major_redesign"
    ∧ determineModificationStrategy (.strVal "potential_duplicate") 0.7 5 =
        "differentiation_focus"
    ∧ determineModificationStrategy (.strVal "weird_status") 0.99 9 = "enhancement_only" :=
  ⟨determine_modification_strategy_table.1 0.96 0 (by norm_num),
   determine_modification_strategy_table.2.2.2.1 0.7 5 (by norm_num),
   determine_modification_strategy_table.2.2.2.2.2.2.1 "weird_status" 0.99 9
     (by decide) (by decide)⟩


set_option maxRecDepth 8000 in
/-- C8 (code bug): when no JSON object is recoverable the proposal equals the
deterministic fallback, whose `modifications_made` and `rationale` are
non-empty — but a Generator JSON that carries the keys with empty values
defeats the backfill: `modified_topic.get(key, default)` returns the present
empty value, so the validated proposal keeps `modifications_made = []` and
`rationale = ""`, contradicting the guarantee. -/
theorem modification_empty_fields_survive :
    tmValidate none sampleOriginalTopic = createFallbackModification sampleOriginalTopic
    ∧ pyTruthy (jgetD (createFallbackModification sampleOriginalTopic)
        "modifications_made" .jnull) = true
    ∧ pyTruthy (jgetD (createFallbackModification sampleOriginalTopic)
        "rationale" .jnull) = true
    ∧ jget? (tmValidate (some emptyFieldsGeneratorJson) sampleOriginalTopic)
        "modifications_made" = some (.jlist [])
    ∧ jget? (tmValidate (some emptyFieldsGeneratorJson) sampleOriginalTopic)
        "rationale" = some (.jstr "") :=
  ⟨by decide, by decide, by decide, by decide, by decide⟩

set_option maxRecDepth 8000 in
/-- C9 counterexample: a Generator-supplied field outside the accepted schema
(`banana`) is not stripped: it survives the parse/normalize validation with
its value intact. -/
theorem unknown_field_survives_validation :
    jmem (tmValidate (some (sampleGeneratorJson ++ [("banana", .jstr "x")]))
      sampleOriginalTopic) "banana" = true
    ∧ jget? (tmValidate (some (sampleGeneratorJson ++ [("banana", .jstr "x")]))
      sampleOriginalTopic) "banana" = some (.jstr "x") :=
  ⟨by decide, by decide⟩

theorem jmem_iff_exists (o : JObj) (k : String) :
    jmem o k = true ↔ ∃ p ∈ o, p.1 = k := by
  simp only [jmem, jget?, Option.isSome_map', List.find?_isSome, beq_iff_eq]


theorem jmem_jset (o : JObj) (k2 : String) (v : JVal) (k : String)
    (h : jmem o k = true) : jmem (jset o k2 v) k = true := by
  rcases (jmem_iff_exists o k).mp h with ⟨p, hp, hpk⟩
  unfold jset
  split
  · refine (jmem_iff_exists _ _).mpr
      ⟨if p.1 == k2 then (k2, v) else p, List.mem_map_of_mem _ hp, ?_⟩
    by_cases hk : p.1 = k2
    · simp [hk, ← hpk]
    · rw [if_neg (by simpa [hpk] using hk)]
      exact hpk
  · exact (jmem_iff_exists _ _).mpr ⟨p, List.mem_append_left _ hp, hpk⟩

theorem jmem_jpop (o : JObj) (k2 : String) (k : String)
    (hne : k ≠ k2) (h : jmem o k = true) : jmem (jpop o k2) k = true := by
  rcases (jmem_iff_exists o k).mp h with ⟨p, hp, hpk⟩
  refine (jmem_iff_exists _ _).mpr ⟨p, List.mem_filter.mpr ⟨hp, ?_⟩, hpk⟩
  simp [hpk, hne]

theorem jmem_filter_not_deprecated (o : JObj) (k : String)
    (hdep : isDeprecatedKey k = false) (h : jmem o k = true) :
    jmem (o.filter fun p => !(isDeprecatedKey p.1)) k = true := by
  rcases (jmem_iff_exists o k).mp h with ⟨p, hp, hpk⟩
  refine (jmem_iff_exists _ _).mpr ⟨p, List.mem_filter.mpr ⟨hp, ?_⟩, hpk⟩
  simp [hpk, hdep]

theorem jmem_coerceIntField (orig o : JObj) (k2 : String) (k : String)
    (h : jmem o k = true) : jmem (coerceIntField orig o k2) k = true := by
  unfold coerceIntField
  repeat' split
  all_goals first
    | exact h
    | exact jmem_jset _ _ _ _ h

theorem jmem_requiredBackfillStep (orig o : JObj) (f k : String)
    (h : jmem o k = true) : jmem (requiredBackfillStep orig o f) k = true := by
  unfold requiredBackfillStep
  repeat' split
  all_goals first | exact h | exact jmem_jset _ _ _ _ h

theorem jmem_backfillCategoryStep (orig o : JObj) (k : String)
    (h : jmem o k = true) : jmem (backfillCategoryStep orig o) k = true := by
  unfold backfillCategoryStep
  split
  · exact h
  · exact jmem_jset _ _ _ _ h

theorem jmem_backfillMaxStudentsStep (orig o : JObj) (k : String)
    (h : jmem o k = true) : jmem (backfillMaxStudentsStep orig o) k = true := by
  unfold backfillMaxStudentsStep
  split
  · exact h
  · exact jmem_jset _ _ _ _ h

theorem jmem_ensureVectorFieldStep (orig o : JObj) (f k : String)
    (h : jmem o k = true) : jmem (ensureVectorFieldStep orig o f) k = true := by
  unfold ensureVectorFieldStep
  split
  · exact jmem_jset _ _ _ _ h
  · exact h

theorem jmem_ensureModificationsMadeStep (o : JObj) (k : String)
    (h : jmem o k = true) : jmem (ensureModificationsMadeStep o) k = true := by
  unfold ensureModificationsMadeStep
  split
  · exact h
  · exact jmem_jset _ _ _ _ h

theorem jmem_ensureRationaleStep (o : JObj) (k : String)
    (h : jmem o k = true) : jmem (ensureRationaleStep o) k = true := by
  unfold ensureRationaleStep
  split
  · exact h
  · exact jmem_jset _ _ _ _ h

theorem jmem_normalizeTextFieldStep (orig o : JObj) (f k : String)
    (h : jmem o k = true) : jmem (normalizeTextFieldStep orig o f) k = true := by
  unfold normalizeTextFieldStep
  repeat' split
  all_goals first | exact h | exact jmem_jset _ _ _ _ h

theorem jmem_normalizeVectorFieldStep (orig o : JObj) (f k : String)
    (h : jmem o k = true) : jmem (normalizeVectorFieldStep orig o f) k = true := by
  unfold normalizeVectorFieldStep
  repeat' split
  all_goals first | exact h | exact jmem_jset _ _ _ _ h

theorem jmem_normalizeEnsureModificationsStep (mt o : JObj) (k : String)
    (h : jmem o k = true) : jmem (normalizeEnsureModificationsStep mt o) k = true := by
  unfold normalizeEnsureModificationsStep
  split
  · exact jmem_jset _ _ _ _ h
  · exact h

theorem jmem_normalizeEnsureRationaleStep (mt o : JObj) (k : String)
    (h : jmem o k = true) : jmem (normalizeEnsureRationaleStep mt o) k = true := by
  unfold normalizeEnsureRationaleStep
  split
  · exact jmem_jset _ _ _ _ h
  · exact h

theorem jmem_foldl (k : String) (step : JObj → String → JObj) :
    ∀ fs : List String,
      (∀ (o : JObj) (f : String), f ∈ fs → jmem o k = true → jmem (step o f) k = true) →
      ∀ o : JObj, jmem o k = true → jmem (fs.foldl step o) k = true := by
  intro fs
  induction fs with
  | nil => exact fun _ _ h => h
  | cons f fs ih =>
    intro hstep o h
    exact ih (fun o2 f2 hf2 h2 => hstep o2 f2 (List.mem_cons_of_mem _ hf2) h2) _
      (hstep o f (List.mem_cons_self _ _) h)

theorem isDeprecatedKey_of_mem_popLists (f : String)
    (hf : f ∈ deprecatedPopList
      ∨ f ∈ ["methodology", "expected_outcomes", "requirements", "expectedOutcomes"]) :
    isDeprecatedKey f = true := by
  have hcanon : f = "methodology" ∨ f = "expected_outcomes" ∨ f = "requirements"
      ∨ f = "expectedOutcomes" := by
    rcases hf with hf | hf <;> simp [deprecatedPopList] at hf <;> tauto
  rcases hcanon with rfl | rfl | rfl | rfl <;> decide

theorem jmem_parseModificationResponse (obj original : JObj) (k : String)
    (hdep : isDeprecatedKey k = false) (hk : jmem obj k = true) :
    jmem (parseModificationResponse (some obj) original) k = true := by
  have hne : ∀ k2 : String, isDeprecatedKey k2 = true → k ≠ k2 := by
    intro k2 hk2 he
    subst he
    rw [hdep] at hk2
    exact Bool.false_ne_true hk2
  unfold parseModificationResponse
  apply jmem_ensureRationaleStep
  apply jmem_ensureModificationsMadeStep
  apply jmem_foldl _ _ _
    (fun o2 f2 hf2 h2 =>
      jmem_jpop _ _ _ (hne f2 (isDeprecatedKey_of_mem_popLists f2 (Or.inr hf2))) h2)
  apply jmem_foldl _ _ _ (fun o2 f2 _ h2 => jmem_ensureVectorFieldStep _ _ _ _ h2)
  apply jmem_filter_not_deprecated _ _ hdep
  apply jmem_foldl _ _ _
    (fun o2 f2 hf2 h2 =>
      jmem_jpop _ _ _ (hne f2 (isDeprecatedKey_of_mem_popLists f2 (Or.inl hf2))) h2)
  apply jmem_foldl _ _ _ (fun o2 f2 _ h2 => jmem_coerceIntField _ _ _ _ h2)
  apply jmem_backfillMaxStudentsStep
  apply jmem_backfillCategoryStep
  apply jmem_foldl _ _ _ (fun o2 f2 _ h2 => jmem_requiredBackfillStep _ _ _ _ h2)
  exact hk

theorem jmem_normalizeModifiedTopic (mt original : JObj) (k : String)
    (hdep : isDeprecatedKey k = false) (hk : jmem mt k = true) :
    jmem (normalizeModifiedTopic mt original) k = true := by
  have hne : ∀ k2 : String, isDeprecatedKey k2 = true → k ≠ k2 := by
    intro k2 hk2 he
    subst he
    rw [hdep] at hk2
    exact Bool.false_ne_true hk2
  unfold normalizeModifiedTopic
  apply jmem_normalizeEnsureRationaleStep
  apply jmem_normalizeEnsureModificationsStep
  apply jmem_foldl _ _ _
    (fun o2 f2 hf2 h2 =>
      jmem_jpop _ _ _ (hne f2 (isDeprecatedKey_of_mem_popLists f2 (Or.inr hf2))) h2)
  apply jmem_jset
  apply jmem_jset
  apply jmem_jset
  apply jmem_jset
  apply jmem_foldl _ _ _ (fun o2 f2 _ h2 => jmem_normalizeVectorFieldStep _ _ _ _ h2)
  apply jmem_foldl _ _ _ (fun o2 f2 _ h2 => jmem_normalizeTextFieldStep _ _ _ _ h2)
  exact hk

/-- C9 amended: the validation pipeline strips exactly the deprecated-field
family — keys whose lowercased name contains methodology, expected or
requirements; every other Generator-supplied field, whatever its name,
survives the parse/normalize validation (unknown fields are only discarded
afterwards by the pydantic TopicRequest construction, which itself also
admits eN_Title and abbreviation). -/
theorem validation_strips_only_deprecated_fields
    (obj original : JObj) (k : String)
    (hk : jmem obj k = true) (hdep : isDeprecatedKey k = false) :
    jmem (tmValidate (some obj) original) k = true := by
  unfold tmValidate
  exact jmem_normalizeModifiedTopic _ _ _ hdep
    (jmem_parseModificationResponse _ _ _ hdep hk)

/-- Witness for C9 amended: the schema field `rationale` of a well-formed
Generator output survives validation. -/
theorem validation_strips_only_deprecated_fields_witness :
    jmem (tmValidate (some sampleGeneratorJson) sampleOriginalTopic) "rationale" = true :=
  validation_strips_only_deprecated_fields sampleGeneratorJson sampleOriginalTopic
    "rationale" (by decide) (by decide)

end CapBot
